import Mathlib

/-!
Shallow embedding of the checkout and inventory ledger engine of the
`avm_pos` point-of-sale application.

The embedded code lives in `electron/main.ts`
(`splitToJson`, `computeReceiptTotals`, `createReceiptWithItems`) and
`electron/handlers.ts` (the `pos:checkout` IPC handler and
`storeSettings:upsert`).  The SQLite tables declared in
`electron/schema.ts` and created by `ensureDbSchema` are modelled as
lists of rows inside an explicit `DBState`; only the columns that the
checkout path reads or writes are kept.  JavaScript numbers are modelled
as rationals (`ℚ`).  `ensureDbSchema` runs `PRAGMA foreign_keys = ON` on
the same connection used by checkout, so the
`created_by REFERENCES users(id)` constraint of the `transactions` table
and the `PRIMARY KEY` uniqueness of the `receipts` table are modelled as
failure points of the corresponding inserts; `better-sqlite3`
transactions roll the whole unit of work back when the wrapped function
throws, which `createReceiptWithItems` models by returning the original
state on any error.
-/

namespace AvmPos

/-- JavaScript coercion `Number(x || 0)` on an already numeric value:
`0` is falsy and is replaced by the literal `0`, every other rational is
returned unchanged. -/
def jsOr0 (x : ℚ) : ℚ := if x = 0 then 0 else x

/-- The `paymentSplit` argument of a checkout, field for field the
`PaymentSplit` type of `electron/main.ts`. -/
structure PaymentSplit where
  cashAmt : ℚ
  upiAmt : ℚ
  cardAmt : ℚ

/-- `splitToJson` of `electron/main.ts`: serializes a payment split as a
JSON object with the three amounts coerced through `Number(x || 0)`.
The serialized JSON text is modelled by its content, a coerced
`PaymentSplit` value. -/
def splitToJson (split : PaymentSplit) : PaymentSplit :=
  { cashAmt := jsOr0 split.cashAmt
    upiAmt := jsOr0 split.upiAmt
    cardAmt := jsOr0 split.cardAmt }

/-- A row of the `products` table, keeping the columns used by checkout:
id, display name, unit price `mrp`, tax percentage `gst`, on-hand
`quantity` and the update timestamp written on every sale. -/
structure Product where
  id : ℕ
  productName : String
  mrp : ℚ
  gst : ℚ
  quantity : ℚ
  updatedAt : ℕ

/-- A row of the `users` table (id and the `active` flag; the remaining
columns are never read by the checkout path). -/
structure UserRow where
  id : ℕ
  active : Bool

/-- A row of the `store_settings` table, keeping the columns relevant to
stock policy. -/
structure StoreSettingsRow where
  id : ℕ
  userId : ℕ
  allowNegativeStock : Bool

/-- A row of the `transactions` table. -/
structure TransactionRow where
  id : ℕ
  finalAmount : ℚ
  tax : ℚ
  paymentSplit : PaymentSplit
  discount : ℚ
  transactionDate : ℕ
  createdBy : ℕ

/-- A row of the `receipts` table. -/
structure ReceiptRow where
  id : ℕ
  totalAmount : ℚ
  tax : ℚ
  paymentSplit : PaymentSplit
  discount : ℚ
  receiptDate : ℕ
  createdBy : ℕ

/-- A row of the `transaction_items` table (the auto-assigned surrogate
id is left implicit as the position in the list). -/
structure TransactionItemRow where
  transactionId : ℕ
  productId : ℕ
  quantity : ℚ
  unitPrice : ℚ
  amount : ℚ
  tax : ℚ
  discount : ℚ

/-- A row of the `product_logs` table. -/
structure ProductLogRow where
  productId : ℕ
  receiptId : ℕ
  movementType : String
  quantity : ℚ
  amount : ℚ
  tax : ℚ
  discount : ℚ
  datetime : ℕ

/-- The SQLite data store: the tables touched by the checkout path,
plus the AUTOINCREMENT cursor of the `transactions` table. -/
structure DBState where
  products : List Product
  users : List UserRow
  storeSettings : List StoreSettingsRow
  transactions : List TransactionRow
  nextTransactionId : ℕ
  receipts : List ReceiptRow
  transactionItems : List TransactionItemRow
  productLogs : List ProductLogRow

/-- The errors the checkout path can throw.  The first three are the
pricing-stage `throw new Error(...)` calls of `computeReceiptTotals`;
the last two are the SQLite constraint failures that the inserts of
`createReceiptWithItems` can hit (`PRAGMA foreign_keys = ON` is set by
`ensureDbSchema`). -/
inductive PosError where
  | productNotFound (productId : ℕ)
  | invalidQuantity
  | insufficientStock (productName : String)
  | foreignKeyViolation
  | uniqueConstraintViolation

/-- One entry of the `items` array of a checkout request. -/
structure CheckoutItem where
  productId : ℕ
  qty : ℚ

/-- One element of the `rows` array built by `computeReceiptTotals`. -/
structure LineRow where
  product : Product
  qty : ℚ
  lineGross : ℚ
  lineTax : ℚ

/-- The record returned by `computeReceiptTotals`. -/
structure ReceiptTotals where
  rows : List LineRow
  subtotal : ℚ
  tax : ℚ
  discount : ℚ
  total : ℚ

/-- The argument record of `createReceiptWithItems` (dates are opaque
timestamps). -/
structure CheckoutArgs where
  createdBy : ℕ
  receiptDate : ℕ
  discount : ℚ
  paymentSplit : PaymentSplit
  items : List CheckoutItem

/-- The record returned by a successful `createReceiptWithItems`. -/
structure CheckoutResult where
  receiptId : ℕ
  transactionId : ℕ
  totalAmount : ℚ
  tax : ℚ
  discount : ℚ

/-- `db.select().from(products).where(eq(products.id, pid)).get()`:
the first `products` row with the given id. -/
def findProduct (st : DBState) (pid : ℕ) : Option Product :=
  st.products.find? fun p => p.id == pid

/-- The body of the `args.items.map(...)` callback of
`computeReceiptTotals`: resolve the product, validate the quantity and
the stock level, and build the line row.  The three `throw` statements
become `Except.error` values, in source order. -/
def computeRow (st : DBState) (it : CheckoutItem) : Except PosError LineRow :=
  match findProduct st it.productId with
  | none => Except.error (PosError.productNotFound it.productId)
  | some p =>
      if it.qty ≤ 0 then Except.error PosError.invalidQuantity
      else if p.quantity < it.qty then
        Except.error (PosError.insufficientStock p.productName)
      else
        let lineGross := p.mrp * it.qty
        let lineTax := lineGross * jsOr0 p.gst / 100
        Except.ok { product := p, qty := it.qty, lineGross := lineGross, lineTax := lineTax }

/-- `args.items.map(...)` of `computeReceiptTotals`: the callbacks run
left to right and the first thrown error aborts the whole map. -/
def computeRowsList (st : DBState) : List CheckoutItem → Except PosError (List LineRow)
  | [] => Except.ok []
  | it :: rest =>
      match computeRow st it with
      | Except.error e => Except.error e
      | Except.ok r =>
          match computeRowsList st rest with
          | Except.error e => Except.error e
          | Except.ok rs => Except.ok (r :: rs)

/-- `computeReceiptTotals` of `electron/main.ts`: build the line rows,
then `subtotal`, `tax`, the clamped `discount`
(`Math.max(0, Math.min(Number(args.discount || 0), subtotal))`) and
`total = Math.max(0, subtotal - discount + tax)`. -/
def computeReceiptTotals (st : DBState) (items : List CheckoutItem) (discountArg : ℚ) :
    Except PosError ReceiptTotals :=
  match computeRowsList st items with
  | Except.error e => Except.error e
  | Except.ok rows =>
      let subtotal := rows.foldl (fun acc r => acc + r.lineGross) 0
      let tax := rows.foldl (fun acc r => acc + r.lineTax) 0
      let discount := max 0 (min (jsOr0 discountArg) subtotal)
      let total := max 0 (subtotal - discount + tax)
      Except.ok { rows := rows, subtotal := subtotal, tax := tax, discount := discount, total := total }

/-- The per-line discount allocation of `createReceiptWithItems`:
`subtotal > 0 ? (discount * r.lineGross) / subtotal : 0`. -/
def lineDiscount (subtotal discount lineGross : ℚ) : ℚ :=
  if 0 < subtotal then discount * lineGross / subtotal else 0

/-- The `transaction_items` row inserted for one line row. -/
def mkItemRow (transactionId : ℕ) (subtotal discount : ℚ) (r : LineRow) : TransactionItemRow :=
  { transactionId := transactionId
    productId := r.product.id
    quantity := r.qty
    unitPrice := r.product.mrp
    amount := r.lineGross
    tax := r.lineTax
    discount := lineDiscount subtotal discount r.lineGross }

/-- The `product_logs` row inserted for one line row, tagged `sale`. -/
def mkLogRow (receiptId : ℕ) (subtotal discount : ℚ) (receiptDate : ℕ) (r : LineRow) :
    ProductLogRow :=
  { productId := r.product.id
    receiptId := receiptId
    movementType := "sale"
    quantity := r.qty
    amount := r.lineGross
    tax := r.lineTax
    discount := lineDiscount subtotal discount r.lineGross
    datetime := receiptDate }

/-- The `transactions` row inserted by `createReceiptWithItems`. -/
def mkTransactionRow (id : ℕ) (t : ReceiptTotals) (args : CheckoutArgs) : TransactionRow :=
  { id := id
    finalAmount := t.total
    tax := t.tax
    paymentSplit := splitToJson args.paymentSplit
    discount := t.discount
    transactionDate := args.receiptDate
    createdBy := args.createdBy }

/-- The `receipts` row inserted by `createReceiptWithItems`, kept in
sync with the `transactions` row (same id, same figures). -/
def mkReceiptRow (id : ℕ) (t : ReceiptTotals) (args : CheckoutArgs) : ReceiptRow :=
  { id := id
    totalAmount := t.total
    tax := t.tax
    paymentSplit := splitToJson args.paymentSplit
    discount := t.discount
    receiptDate := args.receiptDate
    createdBy := args.createdBy }

/-- The `db.insert(transactions)` call.  With `PRAGMA foreign_keys = ON`
the `created_by REFERENCES users(id)` constraint makes the insert throw
when no `users` row with that id exists; the `active` column plays no
part.  On success the AUTOINCREMENT cursor advances. -/
def insertTransactionRow (st : DBState) (row : TransactionRow) : Except PosError DBState :=
  if st.users.any fun u => u.id == row.createdBy then
    Except.ok { st with
      transactions := st.transactions ++ [row]
      nextTransactionId := st.nextTransactionId + 1 }
  else Except.error PosError.foreignKeyViolation

/-- The `db.insert(receipts)` call with an explicit id: the `receipts`
PRIMARY KEY makes the insert throw when a row with that id already
exists (the `receipts` table is also fed by the independent
`receipts:add` handler, so a collision is reachable).  Its
`created_by` constraint is the same value already accepted by the
`transactions` insert. -/
def insertReceiptRow (st : DBState) (row : ReceiptRow) : Except PosError DBState :=
  if st.receipts.any fun r => r.id == row.id then
    Except.error PosError.uniqueConstraintViolation
  else Except.ok { st with receipts := st.receipts ++ [row] }

/-- One iteration of the `for (const r of rows)` loop of
`createReceiptWithItems`: insert the `transaction_items` row, insert the
`product_logs` row, then set the product quantity to
`Number(r.product.quantity) - r.qty` (the quantity read before the
loop started) and stamp `updatedAt`. -/
def applyLine (transactionId : ℕ) (subtotal discount : ℚ) (receiptDate now : ℕ)
    (st : DBState) (r : LineRow) : DBState :=
  let st1 := { st with
    transactionItems := st.transactionItems ++ [mkItemRow transactionId subtotal discount r] }
  let st2 := { st1 with
    productLogs := st1.productLogs ++ [mkLogRow transactionId subtotal discount receiptDate r] }
  { st2 with
    products := st2.products.map fun p =>
      if p.id == r.product.id then
        { p with quantity := r.product.quantity - r.qty, updatedAt := now }
      else p }

/-- The function wrapped by `sqlite.transaction(() => ...)` in
`createReceiptWithItems`: compute the totals, insert the transaction
row, insert the mirror receipt row, then run the per-line loop. -/
def checkoutBody (st : DBState) (args : CheckoutArgs) (now : ℕ) :
    Except PosError (CheckoutResult × DBState) :=
  match computeReceiptTotals st args.items args.discount with
  | Except.error e => Except.error e
  | Except.ok t =>
      let transactionId := st.nextTransactionId
      match insertTransactionRow st (mkTransactionRow transactionId t args) with
      | Except.error e => Except.error e
      | Except.ok st1 =>
          match insertReceiptRow st1 (mkReceiptRow transactionId t args) with
          | Except.error e => Except.error e
          | Except.ok st2 =>
              let st3 := t.rows.foldl
                (applyLine transactionId t.subtotal t.discount args.receiptDate now) st2
              Except.ok
                ({ receiptId := transactionId
                   transactionId := transactionId
                   totalAmount := t.total
                   tax := t.tax
                   discount := t.discount }, st3)

/-- `createReceiptWithItems` of `electron/main.ts`: the body runs inside
a `better-sqlite3` transaction, so a throw anywhere in the body rolls
the data store back to its pre-call state and re-raises the error
(modelled by returning the error together with the unchanged state). -/
def createReceiptWithItems (st : DBState) (args : CheckoutArgs) (now : ℕ) :
    Except PosError CheckoutResult × DBState :=
  match checkoutBody st args now with
  | Except.error e => (Except.error e, st)
  | Except.ok (res, st2) => (Except.ok res, st2)

/-- Read-back of a receipt by id,
`db.select().from(receipts).where(eq(receipts.id, id)).get()`. -/
def findReceipt (st : DBState) (id : ℕ) : Option ReceiptRow :=
  st.receipts.find? fun r => r.id == id

/-! ### Concrete stores and requests used as test vectors -/

/-- An empty catalog with one active user. -/
def stC1 : DBState :=
  { products := [], users := [{ id := 7, active := true }], storeSettings := []
    transactions := [], nextTransactionId := 1, receipts := []
    transactionItems := [], productLogs := [] }

/-- A request for a product id that does not exist. -/
def argsC1 : CheckoutArgs :=
  { createdBy := 7, receiptDate := 0, discount := 0
    paymentSplit := { cashAmt := 0, upiAmt := 0, cardAmt := 0 }
    items := [{ productId := 1, qty := 2 }] }

/-- One product with 10 units on hand. -/
def stC2 : DBState :=
  { products := [{ id := 1, productName := "A", mrp := 5, gst := 0, quantity := 10, updatedAt := 0 }]
    users := [{ id := 7, active := true }], storeSettings := []
    transactions := [], nextTransactionId := 1, receipts := []
    transactionItems := [], productLogs := [] }

/-- A cart mentioning the same product twice (3 units and 4 units). -/
def argsC2 : CheckoutArgs :=
  { createdBy := 7, receiptDate := 0, discount := 0
    paymentSplit := { cashAmt := 0, upiAmt := 0, cardAmt := 0 }
    items := [{ productId := 1, qty := 3 }, { productId := 1, qty := 4 }] }

/-- One product priced 100 with 12 percent tax. -/
def stC3 : DBState :=
  { products := [{ id := 1, productName := "B", mrp := 100, gst := 12, quantity := 5, updatedAt := 0 }]
    users := [{ id := 7, active := true }], storeSettings := []
    transactions := [], nextTransactionId := 1, receipts := []
    transactionItems := [], productLogs := [] }

/-- The totals of one unit of the `stC3` product with discount 10. -/
def tC3 : ReceiptTotals :=
  { rows := [{ product := { id := 1, productName := "B", mrp := 100, gst := 12, quantity := 5, updatedAt := 0 }
               qty := 1, lineGross := 100, lineTax := 12 }]
    subtotal := 100, tax := 12, discount := 10, total := 102 }

/-- One product priced 10 with 20 units worth of stock sold as 2. -/
def stC4 : DBState :=
  { products := [{ id := 1, productName := "C", mrp := 10, gst := 0, quantity := 9, updatedAt := 0 }]
    users := [{ id := 7, active := true }], storeSettings := []
    transactions := [], nextTransactionId := 1, receipts := []
    transactionItems := [], productLogs := [] }

/-- The totals of two units of the `stC4` product with a negative
requested discount, silently clamped to `0`. -/
def tC4 : ReceiptTotals :=
  { rows := [{ product := { id := 1, productName := "C", mrp := 10, gst := 0, quantity := 9, updatedAt := 0 }
               qty := 2, lineGross := 20, lineTax := 0 }]
    subtotal := 20, tax := 0, discount := 0, total := 20 }

/-- One product priced 200. -/
def stC5 : DBState :=
  { products := [{ id := 1, productName := "A", mrp := 200, gst := 0, quantity := 5, updatedAt := 0 }]
    users := [{ id := 7, active := true }], storeSettings := []
    transactions := [], nextTransactionId := 1, receipts := []
    transactionItems := [], productLogs := [] }

/-- One unit of the `stC5` product with a bill-level discount of 20. -/
def argsC5 : CheckoutArgs :=
  { createdBy := 7, receiptDate := 2, discount := 20
    paymentSplit := { cashAmt := 0, upiAmt := 0, cardAmt := 0 }
    items := [{ productId := 1, qty := 1 }] }

/-- The totals of the `argsC5` request against `stC5`. -/
def tC5 : ReceiptTotals :=
  { rows := [{ product := { id := 1, productName := "A", mrp := 200, gst := 0, quantity := 5, updatedAt := 0 }
               qty := 1, lineGross := 200, lineTax := 0 }]
    subtotal := 200, tax := 0, discount := 20, total := 180 }

/-- The result of the `argsC5` checkout against `stC5`. -/
def resC5 : CheckoutResult :=
  { receiptId := 1, transactionId := 1, totalAmount := 180, tax := 0, discount := 20 }

/-- The store after the `argsC5` checkout against `stC5` (stamped at
time 3). -/
def stC5fin : DBState :=
  { products := [{ id := 1, productName := "A", mrp := 200, gst := 0, quantity := 4, updatedAt := 3 }]
    users := [{ id := 7, active := true }], storeSettings := []
    transactions := [{ id := 1, finalAmount := 180, tax := 0
                       paymentSplit := { cashAmt := 0, upiAmt := 0, cardAmt := 0 }
                       discount := 20, transactionDate := 2, createdBy := 7 }]
    nextTransactionId := 2
    receipts := [{ id := 1, totalAmount := 180, tax := 0
                   paymentSplit := { cashAmt := 0, upiAmt := 0, cardAmt := 0 }
                   discount := 20, receiptDate := 2, createdBy := 7 }]
    transactionItems := [{ transactionId := 1, productId := 1, quantity := 1, unitPrice := 200
                           amount := 200, tax := 0, discount := 20 }]
    productLogs := [{ productId := 1, receiptId := 1, movementType := "sale", quantity := 1
                      amount := 200, tax := 0, discount := 20, datetime := 2 }] }

/-- A store whose settings explicitly enable negative stock, with a
product holding only 3 units. -/
def stC6 : DBState :=
  { products := [{ id := 1, productName := "Widget", mrp := 10, gst := 0, quantity := 3, updatedAt := 0 }]
    users := [{ id := 1, active := true }]
    storeSettings := [{ id := 1, userId := 1, allowNegativeStock := true }]
    transactions := [], nextTransactionId := 1, receipts := []
    transactionItems := [], productLogs := [] }

/-- A request for 5 units of the 3-unit `stC6` product. -/
def argsC6 : CheckoutArgs :=
  { createdBy := 1, receiptDate := 0, discount := 0
    paymentSplit := { cashAmt := 0, upiAmt := 0, cardAmt := 0 }
    items := [{ productId := 1, qty := 5 }] }

/-- An empty store with one active user. -/
def stC7 : DBState :=
  { products := [], users := [{ id := 7, active := true }], storeSettings := []
    transactions := [], nextTransactionId := 1, receipts := []
    transactionItems := [], productLogs := [] }

/-- A checkout request with an empty cart (and a stray discount). -/
def argsC7 : CheckoutArgs :=
  { createdBy := 7, receiptDate := 0, discount := 5
    paymentSplit := { cashAmt := 0, upiAmt := 0, cardAmt := 0 }
    items := [] }

/-- A store whose only user is inactive. -/
def stC8 : DBState :=
  { products := [{ id := 1, productName := "A", mrp := 10, gst := 0, quantity := 5, updatedAt := 0 }]
    users := [{ id := 7, active := false }], storeSettings := []
    transactions := [], nextTransactionId := 1, receipts := []
    transactionItems := [], productLogs := [] }

/-- The same store as `stC8` but with the user active. -/
def stC8act : DBState :=
  { products := [{ id := 1, productName := "A", mrp := 10, gst := 0, quantity := 5, updatedAt := 0 }]
    users := [{ id := 7, active := true }], storeSettings := []
    transactions := [], nextTransactionId := 1, receipts := []
    transactionItems := [], productLogs := [] }

/-- One unit of product 1 bought by user 7. -/
def argsC8 : CheckoutArgs :=
  { createdBy := 7, receiptDate := 0, discount := 0
    paymentSplit := { cashAmt := 0, upiAmt := 0, cardAmt := 0 }
    items := [{ productId := 1, qty := 1 }] }

/-- One product priced 10 with 5 units on hand. -/
def stC9 : DBState :=
  { products := [{ id := 1, productName := "A", mrp := 10, gst := 0, quantity := 5, updatedAt := 0 }]
    users := [{ id := 7, active := true }], storeSettings := []
    transactions := [], nextTransactionId := 1, receipts := []
    transactionItems := [], productLogs := [] }

/-- Two units of the `stC9` product. -/
def argsC9 : CheckoutArgs :=
  { createdBy := 7, receiptDate := 5, discount := 0
    paymentSplit := { cashAmt := 0, upiAmt := 0, cardAmt := 0 }
    items := [{ productId := 1, qty := 2 }] }

/-- The result of the `argsC9` checkout against `stC9`. -/
def resC9 : CheckoutResult :=
  { receiptId := 1, transactionId := 1, totalAmount := 20, tax := 0, discount := 0 }

/-- The store after the `argsC9` checkout against `stC9` (stamped at
time 6). -/
def stC9fin : DBState :=
  { products := [{ id := 1, productName := "A", mrp := 10, gst := 0, quantity := 3, updatedAt := 6 }]
    users := [{ id := 7, active := true }], storeSettings := []
    transactions := [{ id := 1, finalAmount := 20, tax := 0
                       paymentSplit := { cashAmt := 0, upiAmt := 0, cardAmt := 0 }
                       discount := 0, transactionDate := 5, createdBy := 7 }]
    nextTransactionId := 2
    receipts := [{ id := 1, totalAmount := 20, tax := 0
                   paymentSplit := { cashAmt := 0, upiAmt := 0, cardAmt := 0 }
                   discount := 0, receiptDate := 5, createdBy := 7 }]
    transactionItems := [{ transactionId := 1, productId := 1, quantity := 2, unitPrice := 10
                           amount := 20, tax := 0, discount := 0 }]
    productLogs := [{ productId := 1, receiptId := 1, movementType := "sale", quantity := 2
                      amount := 20, tax := 0, discount := 0, datetime := 5 }] }

/-- One product priced 7 with 9 units on hand. -/
def stC10 : DBState :=
  { products := [{ id := 1, productName := "B", mrp := 7, gst := 0, quantity := 9, updatedAt := 0 }]
    users := [{ id := 7, active := true }], storeSettings := []
    transactions := [], nextTransactionId := 1, receipts := []
    transactionItems := [], productLogs := [] }

/-- Three units of the `stC10` product paid 21 in cash. -/
def argsC10 : CheckoutArgs :=
  { createdBy := 7, receiptDate := 4, discount := 0
    paymentSplit := { cashAmt := 21, upiAmt := 0, cardAmt := 0 }
    items := [{ productId := 1, qty := 3 }] }

/-- The result of the `argsC10` checkout against `stC10`. -/
def resC10 : CheckoutResult :=
  { receiptId := 1, transactionId := 1, totalAmount := 21, tax := 0, discount := 0 }

/-- The store after the `argsC10` checkout against `stC10` (stamped at
time 8). -/
def stC10fin : DBState :=
  { products := [{ id := 1, productName := "B", mrp := 7, gst := 0, quantity := 6, updatedAt := 8 }]
    users := [{ id := 7, active := true }], storeSettings := []
    transactions := [{ id := 1, finalAmount := 21, tax := 0
                       paymentSplit := { cashAmt := 21, upiAmt := 0, cardAmt := 0 }
                       discount := 0, transactionDate := 4, createdBy := 7 }]
    nextTransactionId := 2
    receipts := [{ id := 1, totalAmount := 21, tax := 0
                   paymentSplit := { cashAmt := 21, upiAmt := 0, cardAmt := 0 }
                   discount := 0, receiptDate := 4, createdBy := 7 }]
    transactionItems := [{ transactionId := 1, productId := 1, quantity := 3, unitPrice := 7
                           amount := 21, tax := 0, discount := 0 }]
    productLogs := [{ productId := 1, receiptId := 1, movementType := "sale", quantity := 3
                      amount := 21, tax := 0, discount := 0, datetime := 4 }] }

/-! ### Basic lemmas about the embedded functions -/

/-- On rationals (no NaN), the JavaScript coercion `Number(x || 0)` is
the identity. -/
lemma jsOr0_eq (x : ℚ) : jsOr0 x = x := by
  unfold jsOr0
  split
  next h => exact h.symm
  next h => rfl

/-- Folding addition of a projection over a list is the sum of the
mapped list. -/
lemma foldl_add_eq_sum {α : Type} (f : α → ℚ) (l : List α) (c : ℚ) :
    l.foldl (fun acc r => acc + f r) c = c + (l.map f).sum := by
  induction l generalizing c with
  | nil => simp
  | cons x xs ih => simp [ih, add_assoc]

/-- Everything `computeRow` guarantees about a successfully built line
row: the product was resolved by id, the quantity is positive and within
stock, and the gross and tax figures follow the pricing formulas. -/
lemma computeRow_ok {st : DBState} {it : CheckoutItem} {r : LineRow}
    (h : computeRow st it = Except.ok r) :
    findProduct st it.productId = some r.product ∧ r.qty = it.qty ∧ 0 < r.qty ∧
      r.qty ≤ r.product.quantity ∧ r.lineGross = r.product.mrp * r.qty ∧
      r.lineTax = r.lineGross * jsOr0 r.product.gst / 100 := by
  unfold computeRow at h
  cases hf : findProduct st it.productId with
  | none => simp [hf] at h
  | some p =>
      simp only [hf] at h
      by_cases h1 : it.qty ≤ 0
      · simp [h1] at h
      · by_cases h2 : p.quantity < it.qty
        · simp [h1, h2] at h
        · simp only [if_neg h1, if_neg h2, Except.ok.injEq] at h
          subst h
          exact ⟨rfl, rfl, lt_of_not_le h1, le_of_not_lt h2, rfl, rfl⟩

/-- Every row produced by a successful `computeRowsList` comes from one
of the requested items via `computeRow`. -/
lemma computeRowsList_ok_mem {st : DBState} {items : List CheckoutItem} {rows : List LineRow}
    (h : computeRowsList st items = Except.ok rows) :
    ∀ r ∈ rows, ∃ it ∈ items, computeRow st it = Except.ok r := by
  induction items generalizing rows with
  | nil =>
      unfold computeRowsList at h
      simp only [Except.ok.injEq] at h
      subst h
      simp
  | cons it rest ih =>
      unfold computeRowsList at h
      cases h1 : computeRow st it with
      | error e => simp [h1] at h
      | ok r0 =>
          simp only [h1] at h
          cases h2 : computeRowsList st rest with
          | error e => simp [h2] at h
          | ok rs =>
              simp only [h2, Except.ok.injEq] at h
              subst h
              intro r hr
              rcases List.mem_cons.mp hr with hr | hr
              · exact ⟨it, List.mem_cons_self _ _, by rw [hr]; exact h1⟩
              · rcases ih h2 r hr with ⟨it2, hit2, hc⟩
                exact ⟨it2, List.mem_cons_of_mem _ hit2, hc⟩

/-- The defining equations of a successful `computeReceiptTotals`. -/
lemma computeReceiptTotals_ok {st : DBState} {items : List CheckoutItem} {d : ℚ}
    {t : ReceiptTotals} (h : computeReceiptTotals st items d = Except.ok t) :
    computeRowsList st items = Except.ok t.rows ∧
      t.subtotal = (t.rows.map LineRow.lineGross).sum ∧
      t.tax = (t.rows.map LineRow.lineTax).sum ∧
      t.discount = max 0 (min (jsOr0 d) t.subtotal) ∧
      t.total = max 0 (t.subtotal - t.discount + t.tax) := by
  unfold computeReceiptTotals at h
  cases hr : computeRowsList st items with
  | error e => simp [hr] at h
  | ok rows =>
      simp only [hr, Except.ok.injEq] at h
      subst h
      refine ⟨rfl, ?_, ?_, rfl, rfl⟩
      · show rows.foldl (fun acc r => acc + r.lineGross) 0 = (rows.map LineRow.lineGross).sum
        rw [foldl_add_eq_sum]
        exact zero_add _
      · show rows.foldl (fun acc r => acc + r.lineTax) 0 = (rows.map LineRow.lineTax).sum
        rw [foldl_add_eq_sum]
        exact zero_add _

lemma applyLine_transactions (tid : ℕ) (s d : ℚ) (rd now : ℕ) (st : DBState) (r : LineRow) :
    (applyLine tid s d rd now st r).transactions = st.transactions := rfl

lemma applyLine_receipts (tid : ℕ) (s d : ℚ) (rd now : ℕ) (st : DBState) (r : LineRow) :
    (applyLine tid s d rd now st r).receipts = st.receipts := rfl

lemma applyLine_users (tid : ℕ) (s d : ℚ) (rd now : ℕ) (st : DBState) (r : LineRow) :
    (applyLine tid s d rd now st r).users = st.users := rfl

lemma applyLine_transactionItems (tid : ℕ) (s d : ℚ) (rd now : ℕ) (st : DBState) (r : LineRow) :
    (applyLine tid s d rd now st r).transactionItems
      = st.transactionItems ++ [mkItemRow tid s d r] := rfl

lemma applyLine_productLogs (tid : ℕ) (s d : ℚ) (rd now : ℕ) (st : DBState) (r : LineRow) :
    (applyLine tid s d rd now st r).productLogs
      = st.productLogs ++ [mkLogRow tid s d rd r] := rfl

lemma foldl_applyLine_transactions (tid : ℕ) (s d : ℚ) (rd now : ℕ)
    (rows : List LineRow) (st : DBState) :
    (rows.foldl (applyLine tid s d rd now) st).transactions = st.transactions := by
  induction rows generalizing st with
  | nil => rfl
  | cons r rs ih => rw [List.foldl_cons, ih, applyLine_transactions]

lemma foldl_applyLine_receipts (tid : ℕ) (s d : ℚ) (rd now : ℕ)
    (rows : List LineRow) (st : DBState) :
    (rows.foldl (applyLine tid s d rd now) st).receipts = st.receipts := by
  induction rows generalizing st with
  | nil => rfl
  | cons r rs ih => rw [List.foldl_cons, ih, applyLine_receipts]

lemma foldl_applyLine_users (tid : ℕ) (s d : ℚ) (rd now : ℕ)
    (rows : List LineRow) (st : DBState) :
    (rows.foldl (applyLine tid s d rd now) st).users = st.users := by
  induction rows generalizing st with
  | nil => rfl
  | cons r rs ih => rw [List.foldl_cons, ih, applyLine_users]

lemma foldl_applyLine_transactionItems (tid : ℕ) (s d : ℚ) (rd now : ℕ)
    (rows : List LineRow) (st : DBState) :
    (rows.foldl (applyLine tid s d rd now) st).transactionItems
      = st.transactionItems ++ rows.map (mkItemRow tid s d) := by
  induction rows generalizing st with
  | nil => simp
  | cons r rs ih =>
      rw [List.foldl_cons, ih, applyLine_transactionItems, List.map_cons,
        List.append_assoc, List.singleton_append]

lemma foldl_applyLine_productLogs (tid : ℕ) (s d : ℚ) (rd now : ℕ)
    (rows : List LineRow) (st : DBState) :
    (rows.foldl (applyLine tid s d rd now) st).productLogs
      = st.productLogs ++ rows.map (mkLogRow tid s d rd) := by
  induction rows generalizing st with
  | nil => simp
  | cons r rs ih =>
      rw [List.foldl_cons, ih, applyLine_productLogs, List.map_cons,
        List.append_assoc, List.singleton_append]

/-- Anatomy of a successful checkout: the pricing stage succeeded, the
buyer id passed the foreign-key check, the receipt id was fresh, the
returned result carries the computed totals, and the final state is the
per-line write loop applied to the state holding the two header rows. -/
lemma createReceiptWithItems_ok {st : DBState} {args : CheckoutArgs} {now : ℕ}
    {res : CheckoutResult} {st2 : DBState}
    (h : createReceiptWithItems st args now = (Except.ok res, st2)) :
    ∃ t, computeReceiptTotals st args.items args.discount = Except.ok t ∧
      (st.users.any fun u => u.id == args.createdBy) = true ∧
      (st.receipts.any fun r => r.id == st.nextTransactionId) = false ∧
      res = { receiptId := st.nextTransactionId, transactionId := st.nextTransactionId,
              totalAmount := t.total, tax := t.tax, discount := t.discount } ∧
      st2 = t.rows.foldl
        (applyLine st.nextTransactionId t.subtotal t.discount args.receiptDate now)
        { st with
          transactions := st.transactions ++ [mkTransactionRow st.nextTransactionId t args]
          nextTransactionId := st.nextTransactionId + 1
          receipts := st.receipts ++ [mkReceiptRow st.nextTransactionId t args] } := by
  unfold createReceiptWithItems checkoutBody insertTransactionRow insertReceiptRow at h
  cases ht : computeReceiptTotals st args.items args.discount with
  | error e => simp [ht] at h
  | ok t =>
      simp only [ht, mkTransactionRow, mkReceiptRow] at h
      by_cases hu : (st.users.any fun u => u.id == args.createdBy) = true
      · simp only [hu, if_true] at h
        by_cases hr : (st.receipts.any fun r => r.id == st.nextTransactionId) = true
        · simp [hr] at h
        · simp only [Bool.not_eq_true] at hr
          simp only [hr, Bool.false_eq_true, if_false, Prod.mk.injEq, Except.ok.injEq] at h
          exact ⟨t, rfl, hu, hr, h.1.symm, h.2.symm⟩
      · simp only [Bool.not_eq_true] at hu
        simp [hu] at h

/-- Sum of a list mapped through multiplication by a constant. -/
lemma sum_map_mul_left_q {α : Type} (c : ℚ) (f : α → ℚ) (l : List α) :
    (l.map fun x => c * f x).sum = c * (l.map f).sum := by
  induction l with
  | nil => simp
  | cons x xs ih => simp [ih, mul_add]

/-- `List.find?` skips a prefix in which the predicate never holds. -/
lemma find?_append_of_none {α : Type} (p : α → Bool) {l1 : List α} (l2 : List α)
    (h : l1.find? p = none) : (l1 ++ l2).find? p = l2.find? p := by
  induction l1 with
  | nil => rfl
  | cons x xs ih =>
      cases hp : p x with
      | true =>
          rw [List.find?_cons_of_pos _ hp] at h
          exact absurd h (by simp)
      | false =>
          have hp2 : ¬ p x = true := by simp [hp]
          rw [List.find?_cons_of_neg _ hp2] at h
          rw [List.cons_append, List.find?_cons_of_neg _ hp2]
          exact ih h

/-! ### Claim theorems -/

/-- C1: a checkout that fails at any point (a pricing-stage error or a
persistence-stage constraint failure) leaves the data store exactly as
it was: no new transaction, receipt, line-item or product-log row and
unchanged product quantities (the returned state is the input state);
moreover every pricing-stage error is surfaced as the result of the
call with the store untouched, i.e. before any write. -/
theorem checkout_failure_is_atomic (st : DBState) (args : CheckoutArgs) (now : ℕ) :
    (∀ e, (createReceiptWithItems st args now).1 = Except.error e →
        (createReceiptWithItems st args now).2 = st) ∧
      (∀ e, computeReceiptTotals st args.items args.discount = Except.error e →
        createReceiptWithItems st args now = (Except.error e, st)) := by
  constructor
  · intro e he
    unfold createReceiptWithItems at he ⊢
    cases hb : checkoutBody st args now with
    | error e2 => rfl
    | ok p =>
        obtain ⟨res, st2⟩ := p
        rw [hb] at he
        simp at he
  · intro e he
    unfold createReceiptWithItems checkoutBody
    rw [he]

/-- C3: on every successful pricing run, each line satisfies
`lineGross = mrp * qty` and `lineTax = lineGross * gst / 100`, the
subtotal is the sum of the line gross amounts, the aggregate tax the sum
of the line taxes, and the total is `max 0 (subtotal - discount + tax)`. -/
theorem checkout_totals_formula (st : DBState) (items : List CheckoutItem) (d : ℚ)
    (t : ReceiptTotals) (h : computeReceiptTotals st items d = Except.ok t) :
    (∀ r ∈ t.rows, r.lineGross = r.product.mrp * r.qty ∧
        r.lineTax = r.lineGross * r.product.gst / 100) ∧
      t.subtotal = (t.rows.map LineRow.lineGross).sum ∧
      t.tax = (t.rows.map LineRow.lineTax).sum ∧
      t.total = max 0 (t.subtotal - t.discount + t.tax) := by
  obtain ⟨hrows, hsub, htax, hdisc, htot⟩ := computeReceiptTotals_ok h
  refine ⟨?_, hsub, htax, htot⟩
  intro r hr
  obtain ⟨it, hit, hc⟩ := computeRowsList_ok_mem hrows r hr
  obtain ⟨-, -, -, -, hg, htx⟩ := computeRow_ok hc
  exact ⟨hg, by rw [htx, jsOr0_eq]⟩

/-- C4: on every successful pricing run with a non-negative subtotal,
the applied discount is the clamp `min (max d 0) subtotal` of the
requested discount `d`; and the success of the run never depends on the
requested discount (clamping is silent, it cannot fail a checkout). -/
theorem discount_clamp_policy (st : DBState) (items : List CheckoutItem) (d : ℚ)
    (t : ReceiptTotals) (h : computeReceiptTotals st items d = Except.ok t)
    (hs : 0 ≤ t.subtotal) :
    t.discount = min (max d 0) t.subtotal ∧
      ∀ d2, ∃ t2, computeReceiptTotals st items d2 = Except.ok t2 := by
  obtain ⟨hrows, hsub, htax, hdisc, htot⟩ := computeReceiptTotals_ok h
  constructor
  · rw [hdisc, jsOr0_eq, max_min_distrib_left, max_eq_right hs, max_comm 0 d]
  · intro d2
    unfold computeReceiptTotals
    rw [hrows]
    exact ⟨_, rfl⟩

/-- C5: on every successful checkout, the persisted line-item rows are
exactly the computed rows with the proportional per-line discount
`discount * lineGross / subtotal` when the subtotal is positive and `0`
otherwise, and the line discounts sum exactly (over rationals) to the
applied bill-level discount. -/
theorem proportional_discount_allocation (st : DBState) (args : CheckoutArgs) (now : ℕ)
    (res : CheckoutResult) (st2 : DBState) (t : ReceiptTotals)
    (hc : createReceiptWithItems st args now = (Except.ok res, st2))
    (ht : computeReceiptTotals st args.items args.discount = Except.ok t) :
    st2.transactionItems
        = st.transactionItems ++ t.rows.map (mkItemRow res.transactionId t.subtotal t.discount) ∧
      (∀ r ∈ t.rows, (mkItemRow res.transactionId t.subtotal t.discount r).discount
          = if 0 < t.subtotal then t.discount * r.lineGross / t.subtotal else 0) ∧
      (t.rows.map fun r => lineDiscount t.subtotal t.discount r.lineGross).sum = t.discount := by
  obtain ⟨t2, ht2, hu, hfree, hres, hst⟩ := createReceiptWithItems_ok hc
  have hteq : t = t2 := by
    rw [ht] at ht2
    injection ht2
  subst hteq
  obtain ⟨-, hsub, -, hdisc, -⟩ := computeReceiptTotals_ok ht
  refine ⟨?_, ?_, ?_⟩
  · rw [hst, hres, foldl_applyLine_transactionItems]
  · intro r hr
    rfl
  · by_cases hpos : 0 < t.subtotal
    · have hne : t.subtotal ≠ 0 := ne_of_gt hpos
      have hfun : (fun r : LineRow => lineDiscount t.subtotal t.discount r.lineGross)
          = fun r : LineRow => t.discount / t.subtotal * r.lineGross := by
        funext r
        rw [lineDiscount, if_pos hpos]
        ring
      rw [hfun, sum_map_mul_left_q, ← hsub, div_mul_cancel₀ _ hne]
    · have hd0 : t.discount = 0 := by
        rw [hdisc]
        exact max_eq_left (le_trans (min_le_right _ _) (not_lt.mp hpos))
      have hfun : (fun r : LineRow => lineDiscount t.subtotal t.discount r.lineGross)
          = fun _ : LineRow => (0 : ℚ) := by
        funext r
        rw [lineDiscount, if_neg hpos]
      rw [hfun, hd0]
      simp

/-- The pricing stage reads only the `products` table. -/
lemma computeRow_products_only {st1 st2 : DBState} (hp : st1.products = st2.products)
    (it : CheckoutItem) : computeRow st1 it = computeRow st2 it := by
  unfold computeRow findProduct
  rw [hp]

lemma computeRowsList_products_only {st1 st2 : DBState} (hp : st1.products = st2.products)
    (items : List CheckoutItem) : computeRowsList st1 items = computeRowsList st2 items := by
  induction items with
  | nil => rfl
  | cons it rest ih =>
      unfold computeRowsList
      rw [computeRow_products_only hp, ih]

lemma computeReceiptTotals_products_only {st1 st2 : DBState} (hp : st1.products = st2.products)
    (items : List CheckoutItem) (d : ℚ) :
    computeReceiptTotals st1 items d = computeReceiptTotals st2 items d := by
  unfold computeReceiptTotals
  rw [computeRowsList_products_only hp]

/-- C6 (amended): the stock check of the pricing stage is unconditional:
whenever the first item requests more than the resolved product has on
hand (with a positive quantity), the checkout pricing fails with
`InsufficientStock` carrying the product display name, whatever the
content of the `store_settings` table — the `allowNegativeStock` flag is
stored by `storeSettings:upsert` but never consulted by the checkout
path. -/
theorem insufficient_stock_check_unconditional (st : DBState) (ss : List StoreSettingsRow)
    (it : CheckoutItem) (rest : List CheckoutItem) (d : ℚ) (p : Product)
    (hp : findProduct st it.productId = some p) (hq : 0 < it.qty) (hs : p.quantity < it.qty) :
    computeReceiptTotals { st with storeSettings := ss } (it :: rest) d
      = Except.error (PosError.insufficientStock p.productName) := by
  have hp2 : findProduct { st with storeSettings := ss } it.productId = some p := hp
  unfold computeReceiptTotals computeRowsList computeRow
  rw [hp2]
  dsimp only
  rw [if_neg (not_le.mpr hq), if_pos hs]

/-- C7 (amended): an empty cart is not rejected: when the buyer id
passes the foreign-key check and the next transaction id is fresh in the
`receipts` table, a checkout with an empty `items` list succeeds with
subtotal, tax, discount and total all `0`, appends one transaction row
and one receipt row, and touches no product, line-item or log row. -/
theorem empty_cart_checkout_succeeds (st : DBState) (args : CheckoutArgs) (now : ℕ)
    (hi : args.items = [])
    (hu : (st.users.any fun u => u.id == args.createdBy) = true)
    (hr : (st.receipts.any fun r => r.id == st.nextTransactionId) = false) :
    (createReceiptWithItems st args now).1
        = Except.ok { receiptId := st.nextTransactionId, transactionId := st.nextTransactionId,
                      totalAmount := 0, tax := 0, discount := 0 } ∧
      (createReceiptWithItems st args now).2.products = st.products ∧
      (createReceiptWithItems st args now).2.transactionItems = st.transactionItems ∧
      (createReceiptWithItems st args now).2.productLogs = st.productLogs ∧
      (createReceiptWithItems st args now).2.transactions.length = st.transactions.length + 1 ∧
      (createReceiptWithItems st args now).2.receipts.length = st.receipts.length + 1 := by
  have ht : computeReceiptTotals st args.items args.discount
      = Except.ok { rows := [], subtotal := 0, tax := 0, discount := 0, total := 0 } := by
    rw [hi]
    unfold computeReceiptTotals computeRowsList
    have h1 : max 0 (min (jsOr0 args.discount) (0 : ℚ)) = 0 := max_eq_left (min_le_right _ _)
    simp [h1]
  unfold createReceiptWithItems checkoutBody insertTransactionRow insertReceiptRow
  rw [ht]
  simp only [mkTransactionRow, mkReceiptRow]
  simp only [hu, if_true, hr, Bool.false_eq_true, if_false, List.foldl_nil]
  simp [List.length_append]

/-- `applyLine` commutes with replacing the `users` table (which it
never touches). -/
lemma applyLine_users_update (tid : ℕ) (s d : ℚ) (rd now : ℕ) (u : List UserRow)
    (st : DBState) (r : LineRow) :
    applyLine tid s d rd now { st with users := u } r
      = { applyLine tid s d rd now st r with users := u } := rfl

lemma foldl_applyLine_users_update (tid : ℕ) (s d : ℚ) (rd now : ℕ) (u : List UserRow)
    (rows : List LineRow) (st : DBState) :
    rows.foldl (applyLine tid s d rd now) { st with users := u }
      = { rows.foldl (applyLine tid s d rd now) st with users := u } := by
  induction rows generalizing st with
  | nil => rfl
  | cons r rs ih => rw [List.foldl_cons, applyLine_users_update, ih, List.foldl_cons]

/-- Replacing the `users` table with one in which the buyer id is
equally present commutes with the transaction insert. -/
lemma insertTransactionRow_users_update {st : DBState} {u2 : List UserRow}
    {row : TransactionRow}
    (h : (u2.any fun u => u.id == row.createdBy)
        = (st.users.any fun u => u.id == row.createdBy)) :
    insertTransactionRow { st with users := u2 } row
      = (insertTransactionRow st row).map fun s => { s with users := u2 } := by
  unfold insertTransactionRow
  dsimp only
  rw [h]
  cases hb : st.users.any fun u => u.id == row.createdBy with
  | true => rfl
  | false => rfl

/-- The receipt insert never reads the `users` table. -/
lemma insertReceiptRow_users_update (st : DBState) (u2 : List UserRow) (row : ReceiptRow) :
    insertReceiptRow { st with users := u2 } row
      = (insertReceiptRow st row).map fun s => { s with users := u2 } := by
  unfold insertReceiptRow
  dsimp only
  cases hb : st.receipts.any fun r => r.id == row.id with
  | true => rfl
  | false => rfl

/-- The whole checkout body depends on the `users` table only through
the foreign-key existence check of the buyer id. -/
lemma checkoutBody_users_update (st : DBState) (u2 : List UserRow) (args : CheckoutArgs)
    (now : ℕ)
    (h : (u2.any fun u => u.id == args.createdBy)
        = (st.users.any fun u => u.id == args.createdBy)) :
    checkoutBody { st with users := u2 } args now
      = (checkoutBody st args now).map fun p => (p.1, { p.2 with users := u2 }) := by
  unfold checkoutBody
  rw [@computeReceiptTotals_products_only { st with users := u2 } st rfl args.items args.discount]
  cases ht : computeReceiptTotals st args.items args.discount with
  | error e => rfl
  | ok t =>
      dsimp only
      rw [insertTransactionRow_users_update h]
      cases hi : insertTransactionRow st (mkTransactionRow st.nextTransactionId t args) with
      | error e => rfl
      | ok st1 =>
          dsimp only [Except.map]
          rw [insertReceiptRow_users_update st1 u2 (mkReceiptRow st.nextTransactionId t args)]
          cases hr : insertReceiptRow st1 (mkReceiptRow st.nextTransactionId t args) with
          | error e => rfl
          | ok st2 =>
              dsimp only [Except.map]
              rw [foldl_applyLine_users_update]

/-- C8 (amended): the checkout path performs no application-level buyer
validation.  Its outcome depends on the `users` table only through the
SQLite foreign-key existence check on `createdBy`: replacing the table
by any other table in which the buyer id is equally present or absent
(in particular, flipping the `active` flag of every user) changes
neither the result nor any other table of the final state.  A
nonexistent buyer id fails only as a persistence-stage constraint
violation, never as a dedicated pre-write validation error. -/
theorem buyer_validation_absent (st : DBState) (u2 : List UserRow) (args : CheckoutArgs)
    (now : ℕ)
    (h : (u2.any fun u => u.id == args.createdBy)
        = (st.users.any fun u => u.id == args.createdBy)) :
    (createReceiptWithItems { st with users := u2 } args now).1
        = (createReceiptWithItems st args now).1 ∧
      (createReceiptWithItems { st with users := u2 } args now).2
        = { (createReceiptWithItems st args now).2 with users := u2 } := by
  have hb := checkoutBody_users_update st u2 args now h
  unfold createReceiptWithItems
  rw [hb]
  cases hc : checkoutBody st args now with
  | error e => exact ⟨rfl, rfl⟩
  | ok p =>
      obtain ⟨res, st2⟩ := p
      exact ⟨rfl, rfl⟩

/-- C9: immediately after a successful checkout, reading the receipt
row back by the returned id yields exactly the totals of the returned
`CheckoutResult` (same totalAmount, tax and discount, together with the
payment split, date and buyer of the request). -/
theorem read_back_receipt_matches_result (st : DBState) (args : CheckoutArgs) (now : ℕ)
    (res : CheckoutResult) (st2 : DBState)
    (h : createReceiptWithItems st args now = (Except.ok res, st2)) :
    findReceipt st2 res.receiptId
      = some { id := res.receiptId, totalAmount := res.totalAmount, tax := res.tax,
               paymentSplit := splitToJson args.paymentSplit, discount := res.discount,
               receiptDate := args.receiptDate, createdBy := args.createdBy } := by
  obtain ⟨t, ht, hu, hfree, hres, hst⟩ := createReceiptWithItems_ok h
  subst hres
  unfold findReceipt
  rw [hst, foldl_applyLine_receipts]
  have hnone : st.receipts.find? (fun r => r.id == st.nextTransactionId) = none := by
    rw [List.find?_eq_none]
    intro x hx hxe
    have : st.receipts.any (fun r => r.id == st.nextTransactionId) = true :=
      List.any_eq_true.mpr ⟨x, hx, hxe⟩
    rw [this] at hfree
    cases hfree
  have hrec : ({ st with
      transactions := st.transactions ++ [mkTransactionRow st.nextTransactionId t args]
      nextTransactionId := st.nextTransactionId + 1
      receipts := st.receipts ++ [mkReceiptRow st.nextTransactionId t args] } : DBState).receipts
      = st.receipts ++ [mkReceiptRow st.nextTransactionId t args] := rfl
  rw [hrec, find?_append_of_none _ _ hnone]
  rw [List.find?_cons_of_pos _ (by simp [mkReceiptRow])]
  rfl

/-- C10: every successful checkout appends exactly one row to the
`transactions` table and one to the `receipts` table; the two rows share
the same id and agree field for field (`totalAmount` against
`finalAmount`, and identical tax, discount, serialized payment split,
date and buyer). -/
theorem dual_write_transactions_receipts_agree (st : DBState) (args : CheckoutArgs)
    (now : ℕ) (res : CheckoutResult) (st2 : DBState)
    (h : createReceiptWithItems st args now = (Except.ok res, st2)) :
    ∃ txRow rcRow,
      st2.transactions = st.transactions ++ [txRow] ∧
      st2.receipts = st.receipts ++ [rcRow] ∧
      rcRow.id = txRow.id ∧
      rcRow.totalAmount = txRow.finalAmount ∧
      rcRow.tax = txRow.tax ∧
      rcRow.discount = txRow.discount ∧
      rcRow.paymentSplit = txRow.paymentSplit ∧
      txRow.paymentSplit = splitToJson args.paymentSplit ∧
      rcRow.receiptDate = txRow.transactionDate ∧
      rcRow.createdBy = txRow.createdBy ∧
      txRow.createdBy = args.createdBy := by
  obtain ⟨t, ht, hu, hfree, hres, hst⟩ := createReceiptWithItems_ok h
  refine ⟨mkTransactionRow st.nextTransactionId t args,
    mkReceiptRow st.nextTransactionId t args,
    ?_, ?_, rfl, rfl, rfl, rfl, rfl, rfl, rfl, rfl, rfl⟩
  · rw [hst, foldl_applyLine_transactions]
  · rw [hst, foldl_applyLine_receipts]

/-! ### Witnesses and counterexamples on the concrete test vectors -/

/-- Witness for C1: a checkout of a nonexistent product fails with
`ProductNotFound` and returns the store unchanged. -/
theorem checkout_failure_is_atomic_witness :
    createReceiptWithItems stC1 argsC1 0 = (Except.error (PosError.productNotFound 1), stC1) :=
  (checkout_failure_is_atomic stC1 argsC1 0).2 (PosError.productNotFound 1) rfl

/-- C2, evaluated at the failing input: a cart holding the same product
twice (3 and 4 units against stock 10) checks out successfully, but the
final on-hand quantity is 6 = 10 - 4: the write of the second line
overwrote the decrement of the first instead of accumulating, so the
product quantity did not decrease by the 7 units actually sold. -/
theorem duplicate_item_checkout_not_conserving_stock :
    (createReceiptWithItems stC2 argsC2 1).1
        = Except.ok { receiptId := 1, transactionId := 1, totalAmount := 35, tax := 0, discount := 0 } ∧
      (createReceiptWithItems stC2 argsC2 1).2.products
        = [{ id := 1, productName := "A", mrp := 5, gst := 0, quantity := 6, updatedAt := 1 }] := by
  constructor <;>
    norm_num [createReceiptWithItems, checkoutBody, computeReceiptTotals, computeRowsList,
      computeRow, findProduct, insertTransactionRow, insertReceiptRow, applyLine, mkItemRow,
      mkLogRow, mkTransactionRow, mkReceiptRow, lineDiscount, splitToJson, jsOr0,
      stC2, argsC2, min_def, max_def, List.foldl, List.find?]

/-- Witness for C3: the totals of one unit at price 100 with 12 percent
tax and discount 10 satisfy all the formulas. -/
theorem checkout_totals_formula_witness :
    (∀ r ∈ tC3.rows, r.lineGross = r.product.mrp * r.qty ∧
        r.lineTax = r.lineGross * r.product.gst / 100) ∧
      tC3.subtotal = (tC3.rows.map LineRow.lineGross).sum ∧
      tC3.tax = (tC3.rows.map LineRow.lineTax).sum ∧
      tC3.total = max 0 (tC3.subtotal - tC3.discount + tC3.tax) :=
  checkout_totals_formula stC3 [{ productId := 1, qty := 1 }] 10 tC3
    (by norm_num [computeReceiptTotals, computeRowsList, computeRow, findProduct, jsOr0,
      stC3, tC3, min_def, max_def, List.foldl, List.find?])

/-- Witness for C4: a requested discount of -5 is silently clamped to 0
and any other discount value also checks out. -/
theorem discount_clamp_policy_witness :
    tC4.discount = min (max (-5 : ℚ) 0) tC4.subtotal ∧
      ∀ d2, ∃ t2, computeReceiptTotals stC4 [{ productId := 1, qty := 2 }] d2 = Except.ok t2 :=
  discount_clamp_policy stC4 [{ productId := 1, qty := 2 }] (-5) tC4
    (by norm_num [computeReceiptTotals, computeRowsList, computeRow, findProduct, jsOr0,
      stC4, tC4, min_def, max_def, List.foldl, List.find?])
    (by norm_num [tC4])

/-- Witness for C5: one unit at 200 with bill discount 20 persists a
single line item carrying the whole discount, and the allocation sums
back to 20. -/
theorem proportional_discount_allocation_witness :
    stC5fin.transactionItems
        = stC5.transactionItems
            ++ tC5.rows.map (mkItemRow resC5.transactionId tC5.subtotal tC5.discount) ∧
      (∀ r ∈ tC5.rows, (mkItemRow resC5.transactionId tC5.subtotal tC5.discount r).discount
          = if 0 < tC5.subtotal then tC5.discount * r.lineGross / tC5.subtotal else 0) ∧
      (tC5.rows.map fun r => lineDiscount tC5.subtotal tC5.discount r.lineGross).sum
        = tC5.discount :=
  proportional_discount_allocation stC5 argsC5 3 resC5 stC5fin tC5
    (by norm_num [createReceiptWithItems, checkoutBody, computeReceiptTotals, computeRowsList,
      computeRow, findProduct, insertTransactionRow, insertReceiptRow, applyLine, mkItemRow,
      mkLogRow, mkTransactionRow, mkReceiptRow, lineDiscount, splitToJson, jsOr0,
      stC5, argsC5, resC5, stC5fin, min_def, max_def, List.foldl, List.find?])
    (by norm_num [computeReceiptTotals, computeRowsList, computeRow, findProduct, jsOr0,
      stC5, argsC5, tC5, min_def, max_def, List.foldl, List.find?])

/-- Counterexample for C6 as frozen: the store settings explicitly
enable negative stock, yet the 5-of-3 sale is rejected with
`InsufficientStock` instead of being permitted. -/
theorem negative_stock_policy_not_consulted :
    stC6.storeSettings = [{ id := 1, userId := 1, allowNegativeStock := true }] ∧
      createReceiptWithItems stC6 argsC6 0
        = (Except.error (PosError.insufficientStock "Widget"), stC6) :=
  ⟨rfl, rfl⟩

/-- Witness for the amended C6: the rejection happens whatever the
settings table holds. -/
theorem insufficient_stock_check_unconditional_witness :
    computeReceiptTotals
        { stC6 with storeSettings := [{ id := 1, userId := 1, allowNegativeStock := true }] }
        [{ productId := 1, qty := 5 }] 0
      = Except.error (PosError.insufficientStock "Widget") :=
  insufficient_stock_check_unconditional stC6
    [{ id := 1, userId := 1, allowNegativeStock := true }]
    { productId := 1, qty := 5 } [] 0
    { id := 1, productName := "Widget", mrp := 10, gst := 0, quantity := 3, updatedAt := 0 }
    rfl (by norm_num) (by norm_num)

/-- Counterexample for C7 as frozen: an empty cart is not rejected with
an `EmptyCart` error; the checkout succeeds with total 0 and writes a
transaction row. -/
theorem empty_cart_not_rejected :
    argsC7.items = [] ∧
      (createReceiptWithItems stC7 argsC7 0).1
        = Except.ok { receiptId := 1, transactionId := 1, totalAmount := 0, tax := 0, discount := 0 } ∧
      (createReceiptWithItems stC7 argsC7 0).2.transactions.length = 1 := by
  refine ⟨rfl, ?_, ?_⟩ <;>
    norm_num [createReceiptWithItems, checkoutBody, computeReceiptTotals, computeRowsList,
      insertTransactionRow, insertReceiptRow, mkTransactionRow, mkReceiptRow, splitToJson,
      jsOr0, stC7, argsC7, min_def, max_def, List.foldl]

/-- Witness for the amended C7. -/
theorem empty_cart_checkout_succeeds_witness :
    (createReceiptWithItems stC7 argsC7 0).1
        = Except.ok { receiptId := stC7.nextTransactionId, transactionId := stC7.nextTransactionId,
                      totalAmount := 0, tax := 0, discount := 0 } ∧
      (createReceiptWithItems stC7 argsC7 0).2.products = stC7.products ∧
      (createReceiptWithItems stC7 argsC7 0).2.transactionItems = stC7.transactionItems ∧
      (createReceiptWithItems stC7 argsC7 0).2.productLogs = stC7.productLogs ∧
      (createReceiptWithItems stC7 argsC7 0).2.transactions.length
        = stC7.transactions.length + 1 ∧
      (createReceiptWithItems stC7 argsC7 0).2.receipts.length = stC7.receipts.length + 1 :=
  empty_cart_checkout_succeeds stC7 argsC7 0 rfl rfl rfl

/-- Counterexample for C8 as frozen: the only user is inactive, yet the
checkout succeeds instead of failing with `UnauthorizedActor`. -/
theorem inactive_buyer_checkout_accepted :
    stC8.users = [{ id := 7, active := false }] ∧
      (createReceiptWithItems stC8 argsC8 0).1
        = Except.ok { receiptId := 1, transactionId := 1, totalAmount := 10, tax := 0, discount := 0 } := by
  refine ⟨rfl, ?_⟩
  norm_num [createReceiptWithItems, checkoutBody, computeReceiptTotals, computeRowsList,
    computeRow, findProduct, insertTransactionRow, insertReceiptRow, applyLine, mkItemRow,
    mkLogRow, mkTransactionRow, mkReceiptRow, lineDiscount, splitToJson, jsOr0,
    stC8, argsC8, min_def, max_def, List.foldl, List.find?]

/-- Witness for the amended C8: flipping the active flag of the buyer
changes nothing in the outcome of the checkout. -/
theorem buyer_validation_absent_witness :
    (createReceiptWithItems { stC8act with users := [{ id := 7, active := false }] } argsC8 0).1
        = (createReceiptWithItems stC8act argsC8 0).1 ∧
      (createReceiptWithItems { stC8act with users := [{ id := 7, active := false }] } argsC8 0).2
        = { (createReceiptWithItems stC8act argsC8 0).2 with users := [{ id := 7, active := false }] } :=
  buyer_validation_absent stC8act [{ id := 7, active := false }] argsC8 0 rfl

/-- Witness for C9: reading the persisted receipt of the concrete
checkout back by its returned id yields exactly the returned totals. -/
theorem read_back_receipt_matches_result_witness :
    findReceipt stC9fin resC9.receiptId
      = some { id := resC9.receiptId, totalAmount := resC9.totalAmount, tax := resC9.tax,
               paymentSplit := splitToJson argsC9.paymentSplit, discount := resC9.discount,
               receiptDate := argsC9.receiptDate, createdBy := argsC9.createdBy } :=
  read_back_receipt_matches_result stC9 argsC9 6 resC9 stC9fin
    (by norm_num [createReceiptWithItems, checkoutBody, computeReceiptTotals, computeRowsList,
      computeRow, findProduct, insertTransactionRow, insertReceiptRow, applyLine, mkItemRow,
      mkLogRow, mkTransactionRow, mkReceiptRow, lineDiscount, splitToJson, jsOr0,
      stC9, argsC9, resC9, stC9fin, min_def, max_def, List.foldl, List.find?])

/-- Witness for C10: the concrete checkout appends one transactions row
and one receipts row that agree field for field. -/
theorem dual_write_transactions_receipts_agree_witness :
    ∃ txRow rcRow,
      stC10fin.transactions = stC10.transactions ++ [txRow] ∧
      stC10fin.receipts = stC10.receipts ++ [rcRow] ∧
      rcRow.id = txRow.id ∧
      rcRow.totalAmount = txRow.finalAmount ∧
      rcRow.tax = txRow.tax ∧
      rcRow.discount = txRow.discount ∧
      rcRow.paymentSplit = txRow.paymentSplit ∧
      txRow.paymentSplit = splitToJson argsC10.paymentSplit ∧
      rcRow.receiptDate = txRow.transactionDate ∧
      rcRow.createdBy = txRow.createdBy ∧
      txRow.createdBy = argsC10.createdBy :=
  dual_write_transactions_receipts_agree stC10 argsC10 8 resC10 stC10fin
    (by norm_num [createReceiptWithItems, checkoutBody, computeReceiptTotals, computeRowsList,
      computeRow, findProduct, insertTransactionRow, insertReceiptRow, applyLine, mkItemRow,
      mkLogRow, mkTransactionRow, mkReceiptRow, lineDiscount, splitToJson, jsOr0,
      stC10, argsC10, resC10, stC10fin, min_def, max_def, List.foldl, List.find?])

end AvmPos
